import Mathlib

/-
Verification development for the Adocs-Hub conversion-job pipeline.
The definitions below are a shallow embedding of the Convex backend:
the `conversions` table schema, the job mutations and queries in
`files.ts`, the background conversion actions in `conversion.ts`, and
the expiry sweep in `crons.ts`.  External collaborators (the blob
store, the remote conversion APIs, the PDF libraries) are modelled as
explicit function parameters, so every embedded operation is a pure,
executable Lean function.
-/

namespace AdocsHub

abbrev StorageId := String
abbrev UserId := String
abbrev ConversionId := Nat
abbrev Bytes := String

inductive ConversionType where
  | pdf_to_word
  | image_to_pdf
  | pdf_merger
deriving DecidableEq, Repr

inductive Status where
  | pending
  | processing
  | completed
  | failed
deriving DecidableEq, Repr

/-- A row of the `conversions` table, as declared in `schema.ts`. -/
structure Conversion where
  userId : UserId
  status : Status
  type : ConversionType
  pdfFileId : Option StorageId := none
  docxFileId : Option StorageId := none
  fileName : String
  error : Option String := none
  createdAt : Nat
  updatedAt : Nat
  expiresAt : Nat
  sourceFileIds : Option (List StorageId) := none
  completedAt : Option Nat := none
deriving DecidableEq, Repr

/-- The background task handed to `ctx.scheduler.runAfter(0, ...)` by a
creation mutation. -/
inductive ScheduledAction where
  | convertPdfToWordTask
  | convertImagesToPdfTask
  | mergePdfFilesTask
deriving DecidableEq, Repr

def oneHourMs : Nat := 60 * 60 * 1000

/-- JavaScript truthiness on an optional string: `undefined` and the
empty string are falsy. -/
def truthyString (s : Option String) : Option String :=
  match s with
  | some v => if v = "" then none else some v
  | none => none

/-- `err.message || fallbackMsg` on a string error message. -/
def jsOr (s fallbackMsg : String) : String := if s = "" then fallbackMsg else s

/-- `startConversion` mutation (files.ts): authenticates, inserts a
fresh `processing` job of type `pdf_to_word` and schedules the
`convertPdfToWord` action. -/
def startConversion (auth : Option UserId) (pdfFileId : StorageId) (fileName : String)
    (now : Nat) : Except String (Conversion × ScheduledAction) :=
  match auth with
  | none => Except.error "Not authenticated"
  | some userId =>
      Except.ok
        ({ userId := userId, status := Status.processing, type := ConversionType.pdf_to_word,
           pdfFileId := some pdfFileId, fileName := fileName,
           expiresAt := now + oneHourMs, createdAt := now, updatedAt := now },
         ScheduledAction.convertPdfToWordTask)

/-- `startImageToPdfConversion` mutation (files.ts). -/
def startImageToPdfConversion (auth : Option UserId) (sourceFileIds : List StorageId)
    (fileName : String) (now : Nat) : Except String (Conversion × ScheduledAction) :=
  match auth with
  | none => Except.error "Not authenticated"
  | some userId =>
      Except.ok
        ({ userId := userId, status := Status.processing, type := ConversionType.image_to_pdf,
           sourceFileIds := some sourceFileIds, fileName := fileName,
           expiresAt := now + oneHourMs, createdAt := now, updatedAt := now },
         ScheduledAction.convertImagesToPdfTask)

/-- `startPdfMergerConversion` mutation (files.ts): note that it performs
no validation of the source count; it only authenticates, inserts the
job and schedules `mergePdfFiles`. -/
def startPdfMergerConversion (auth : Option UserId) (sourceFileIds : List StorageId)
    (fileName : String) (now : Nat) : Except String (Conversion × ScheduledAction) :=
  match auth with
  | none => Except.error "Not authenticated"
  | some userId =>
      Except.ok
        ({ userId := userId, status := Status.processing, type := ConversionType.pdf_merger,
           sourceFileIds := some sourceFileIds, fileName := fileName,
           expiresAt := now + oneHourMs, createdAt := now, updatedAt := now },
         ScheduledAction.mergePdfFilesTask)

/-- The partial-fields object handed to `ctx.db.patch` by the mutations
below; a `none` field is absent from the patch object. -/
structure ConversionPatch where
  status : Option Status := none
  pdfFileId : Option StorageId := none
  docxFileId : Option StorageId := none
  error : Option String := none
  updatedAt : Option Nat := none
  completedAt : Option Nat := none
deriving DecidableEq, Repr

/-- Modelled from the spec: the Job Store patch primitive
(`ctx.db.patch`, Convex runtime, not part of this repository) —
"`patch(id, partialFields) -> void`, merging only the supplied fields
and leaving others untouched". -/
def dbPatch (c : Conversion) (p : ConversionPatch) : Conversion :=
  { c with
      status := match p.status with | some s => s | none => c.status,
      pdfFileId := match p.pdfFileId with | some f => some f | none => c.pdfFileId,
      docxFileId := match p.docxFileId with | some f => some f | none => c.docxFileId,
      error := match p.error with | some e => some e | none => c.error,
      updatedAt := match p.updatedAt with | some t => t | none => c.updatedAt,
      completedAt := match p.completedAt with | some t => some t | none => c.completedAt }

/-- `updateConversionJob` mutation (files.ts): conditional spreads
`...(args.x ? { x: args.x } : {})` include a field only when the
argument is present and truthy, and `updatedAt` is always refreshed. -/
def updateConversionJob (job : Conversion) (pdfFileId : Option StorageId)
    (status : Option Status) (error : Option String) (now : Nat) : Conversion :=
  dbPatch job
    { pdfFileId := truthyString pdfFileId,
      status := status,
      error := truthyString error,
      updatedAt := some now }

/-- `markConversionComplete` mutation (files.ts): patches the status from
the `success` flag, includes `docxFileId` only when supplied, refreshes
`updatedAt`, and — notably — accepts and writes no `error` field. -/
def markConversionComplete (job : Conversion) (success : Bool)
    (docxFileId : Option StorageId) (now : Nat) : Conversion :=
  dbPatch job
    { status := some (if success then Status.completed else Status.failed),
      docxFileId := truthyString docxFileId,
      updatedAt := some now }

/-- One element of the `listConversions` result: the row spread together
with the resolved download URLs. -/
structure ConversionListing where
  job : Conversion
  docxUrl : Option String
  pdfUrl : Option String
  sourceUrls : List (Option String)

def enrichListing (getUrl : StorageId → Option String) (c : Conversion) : ConversionListing :=
  { job := c,
    docxUrl := match c.docxFileId with | some f => getUrl f | none => none,
    pdfUrl := match c.pdfFileId with | some f => getUrl f | none => none,
    sourceUrls := match c.sourceFileIds with | some ids => ids.map getUrl | none => [] }

/-- `listConversions` query (files.ts): an unauthenticated caller gets
`[]`; otherwise the `by_user_and_type` index is scanned for the caller's
own rows of the requested type, newest first, and each row is enriched
with download URLs.  The table is modelled as a list in creation order,
so `.order("desc")` is `reverse`. -/
def listConversions (getUrl : StorageId → Option String) (auth : Option UserId)
    (t : ConversionType) (table : List Conversion) : List ConversionListing :=
  match auth with
  | none => []
  | some userId =>
      ((table.filter (fun c => decide (c.userId = userId) && decide (c.type = t))).reverse).map
        (enrichListing getUrl)

/-- The `getConversion` result: the row spread with resolved URLs. -/
structure ConversionDetail where
  job : Conversion
  pdfUrl : Option String
  docxUrl : Option String
  sourceUrls : Option (List String)

/-- `getConversion` query (files.ts): looks the row up by id and
resolves its URLs.  It never consults `getAuthUserId` — the `auth`
argument is deliberately unused, exactly as in the source. -/
def getConversion (getUrl : StorageId → Option String) (auth : Option UserId)
    (db : List (ConversionId × Conversion)) (conversionId : ConversionId) :
    Option ConversionDetail :=
  match db.find? (fun p => p.1 == conversionId) with
  | none => none
  | some p =>
      let c := p.2
      let pdfUrl := match c.pdfFileId with | some f => getUrl f | none => none
      let docxUrl := match c.docxFileId with | some f => getUrl f | none => none
      let srcIds := c.sourceFileIds.getD []
      let srcUrls :=
        if (c.type = ConversionType.image_to_pdf ∨ c.type = ConversionType.pdf_merger)
            ∧ c.sourceFileIds.isSome ∧ 0 < srcIds.length then
          (srcIds.map getUrl).filterMap truthyString
        else []
      some { job := c, pdfUrl := pdfUrl, docxUrl := docxUrl,
             sourceUrls := if 0 < srcUrls.length then some srcUrls else none }

/-- External collaborators of the `convertPdfToWord` action: the
environment variable, the blob store, the network and the Cloudmersive
conversion endpoint. -/
structure PdfToWordWorld where
  apiKey : Option String
  getUrl : StorageId → Option String
  download : String → Except String Bytes
  convertApi : Bytes → Except String Bytes
  storeResult : Bytes → StorageId
  now : Nat

/-- Body of the `try` block of the `convertPdfToWord` action
(conversion.ts): check the API key, resolve and download the source
PDF, call the remote converter, store the result. -/
def convertPdfToWordCore (w : PdfToWordWorld) (job : Conversion) :
    Except String StorageId := do
  let _ ← match truthyString w.apiKey with
    | none => Except.error "Cloudmersive API key not found in environment variables"
    | some k => Except.ok k
  let pdfFileId ← match job.pdfFileId with
    | none => Except.error "PDF file ID is missing"
    | some f => Except.ok f
  let pdfUrl ← match w.getUrl pdfFileId with
    | none => Except.error "PDF file not found"
    | some u => Except.ok u
  let pdfBuffer ← w.download pdfUrl
  let result ← w.convertApi pdfBuffer
  Except.ok (w.storeResult result)

/-- The `convertPdfToWord` action with its surrounding `try`/`catch`:
on success the job is marked complete with the stored blob id; on any
failure `markConversionComplete` is called with `success: false` and no
blob id, and the error is re-thrown.  Returns the patched job record
and the action's outcome. -/
def convertPdfToWordRun (w : PdfToWordWorld) (job : Conversion) :
    Conversion × Except String StorageId :=
  match convertPdfToWordCore w job with
  | Except.ok docxId => (markConversionComplete job true (some docxId) w.now, Except.ok docxId)
  | Except.error e => (markConversionComplete job false none w.now, Except.error e)

/-- The three candidate strategies of `convertImagesToPdfBuffer`
(conversion.ts). -/
inductive Tier where
  | remoteApi
  | pdfKit
  | simpleFallback
deriving DecidableEq, Repr

/-- `urls.filter(Boolean)`: drop missing and empty URLs. -/
def jsFilterTruthy (urls : List (Option String)) : List String :=
  urls.filterMap truthyString

/-- `convertImagesToPdfBuffer` (conversion.ts), instrumented with the
list of tiers it actually attempts.  The Cloudmersive tier runs only
when an API key is configured; each attempted tier's failure is caught
and the next tier is tried; a failure escaping the final fallback is
wrapped by the outer `catch` into "Failed to generate PDF: ...". -/
def convertImagesToPdfBufferTrace (hasApiKey : Bool)
    (remote pdfkit fallback : List String → Except String Bytes)
    (urls : List (Option String)) : List Tier × Except String Bytes :=
  let validUrls := jsFilterTruthy urls
  if validUrls.isEmpty then
    ([], Except.error "No valid image URLs to convert")
  else
    let tier3 : List Tier × Except String Bytes :=
      ([Tier.simpleFallback],
       match fallback validUrls with
       | Except.ok b => Except.ok b
       | Except.error e => Except.error ("Failed to generate PDF: " ++ e))
    let tier2 : List Tier × Except String Bytes :=
      match pdfkit validUrls with
      | Except.ok b => ([Tier.pdfKit], Except.ok b)
      | Except.error _ => (Tier.pdfKit :: tier3.1, tier3.2)
    if hasApiKey then
      match remote validUrls with
      | Except.ok b => ([Tier.remoteApi], Except.ok b)
      | Except.error _ => (Tier.remoteApi :: tier2.1, tier2.2)
    else tier2

/-- External collaborators of the `convertImagesToPdf` action. -/
structure ImagesWorld where
  getUrl : StorageId → Option String
  hasApiKey : Bool
  remote : List String → Except String Bytes
  pdfkit : List String → Except String Bytes
  fallback : List String → Except String Bytes
  upload : Bytes → Except String StorageId
  now : Nat

/-- The `convertImagesToPdf` action (conversion.ts): a job of the wrong
type throws before the `try` block (the job is not patched); otherwise
the source URLs are resolved, the strategy chain produces the PDF, the
result is uploaded, and the job is patched to `completed` with the new
blob id — or, on any error, to `failed` with
`err.message || "Unknown error"`.  `convertImagesToPdfResult` is the
body of the `try` block: resolve the source URLs, run the strategy
chain, upload the produced PDF; `convertImagesToPdfRun` adds the
type guard and the `catch`. -/
def convertImagesToPdfResult (w : ImagesWorld) (job : Conversion) :
    Except String StorageId :=
  let urls := (job.sourceFileIds.getD []).map w.getUrl
  if urls.isEmpty then Except.error "No source images found"
  else do
    let buf ← (convertImagesToPdfBufferTrace w.hasApiKey w.remote w.pdfkit w.fallback urls).2
    w.upload buf

def convertImagesToPdfRun (w : ImagesWorld) (job : Conversion) :
    Conversion × Except String StorageId :=
  if job.type ≠ ConversionType.image_to_pdf then
    (job, Except.error "Invalid conversion job")
  else
    match convertImagesToPdfResult w job with
    | Except.ok sid =>
        (updateConversionJob job (some sid) (some Status.completed) none w.now, Except.ok sid)
    | Except.error e =>
        (updateConversionJob job none (some Status.failed) (some (jsOr e "Unknown error")) w.now,
         Except.error e)

/-- A page of a source or merged PDF, identified abstractly. -/
abbrev Page := Nat

/-- External collaborators of the `mergePdfFiles` action: the blob
store, the network, and pdf-lib (`PDFLib.load` may fail on a corrupt
source, which `parsePdf` models as `none`). -/
structure MergeWorld where
  getUrl : StorageId → Option String
  download : String → Except String Bytes
  parsePdf : Bytes → Option (List Page)
  storePdf : List Page → Except String StorageId
  now : Nat

/-- Resolving and downloading one source file in `mergePdfFiles`. -/
def fetchSource (w : MergeWorld) (fid : StorageId) : Except String Bytes :=
  match w.getUrl fid with
  | none => Except.error ("PDF file not found for ID: " ++ fid)
  | some url => w.download url

/-- The page-copying loop of `mergePdfFiles`: each source is loaded and
its pages appended in order to the accumulating document; a source that
fails to load is skipped (`catch { continue }`). -/
def copyAllPages (parsePdf : Bytes → Option (List Page)) : List Bytes → List Page
  | [] => []
  | b :: rest =>
      match parsePdf b with
      | some pages => pages ++ copyAllPages parsePdf rest
      | none => copyAllPages parsePdf rest

/-- Body of the `try` block of `mergePdfFiles` up to the merged page
list: the source-count validation, URL resolution, downloads, and the
copy loop. -/
def mergePdfFilesCore (w : MergeWorld) (job : Conversion) : Except String (List Page) := do
  let srcIds ← match job.sourceFileIds with
    | none => Except.error "At least two PDF files are required for merging"
    | some ids =>
        if ids.length < 2 then
          Except.error "At least two PDF files are required for merging"
        else Except.ok ids
  let buffers ← srcIds.mapM (fetchSource w)
  Except.ok (copyAllPages w.parsePdf buffers)

/-- Body of the `try` block of `mergePdfFiles` through storing the
merged PDF. -/
def mergePdfFilesResult (w : MergeWorld) (job : Conversion) : Except String StorageId := do
  let pages ← mergePdfFilesCore w job
  w.storePdf pages

/-- The `mergePdfFiles` action with its `try`/`catch`: on success the
merged PDF is stored and the job patched to `completed` with the blob
id; on any error the job is patched to `failed` with the error
message. -/
def mergePdfFilesRun (w : MergeWorld) (job : Conversion) :
    Conversion × Except String StorageId :=
  match mergePdfFilesResult w job with
  | Except.ok sid =>
      (updateConversionJob job (some sid) (some Status.completed) none w.now, Except.ok sid)
  | Except.error e =>
      (updateConversionJob job none (some Status.failed) (some e) w.now,
       Except.error e)

/-- The durable state swept by the Reaper: the `conversions` table and
the set of blob ids present in storage. -/
structure ReaperState where
  conversions : List (ConversionId × Conversion)
  storageKeys : List StorageId

/-- Blob deletions performed for one expired job by
`cleanupExpiredConversions` (crons.ts): the `pdfFileId` blob and the
`docxFileId` blob, when present — and nothing else. -/
def cleanupJobBlobs (st : List StorageId) (c : Conversion) : List StorageId :=
  let st1 := match c.pdfFileId with | some f => st.erase f | none => st
  match c.docxFileId with | some f => st1.erase f | none => st1

def isExpired (now : Nat) (p : ConversionId × Conversion) : Bool :=
  decide (p.2.expiresAt < now)

/-- `cleanupExpiredConversions` (crons.ts): collect every job with
`expiresAt < now`, delete each one's pdf and docx blobs and its record,
and return the number of jobs reclaimed. -/
def cleanupExpiredConversions (now : Nat) (s : ReaperState) : ReaperState × Nat :=
  let expired := s.conversions.filter (isExpired now)
  ({ conversions := s.conversions.filter (fun p => ! isExpired now p),
     storageKeys := expired.foldl (fun st p => cleanupJobBlobs st p.2) s.storageKeys },
   expired.length)

/-- `ctx.db.get` on the conversions table. -/
def getJob (s : ReaperState) (conversionId : ConversionId) : Option Conversion :=
  (s.conversions.find? (fun p => p.1 == conversionId)).map Prod.snd

/-- A (possibly merged) PDF handled by `convertImagesWithApi`, as the
list of the single-page source documents it contains. -/
abbrev MDoc := List Nat

/-- One Cloudmersive `mergeDocumentPdfMulti` call, abstractly: the output
contains the inputs' documents in order. -/
def apiMergeCall (inputs : List MDoc) : MDoc := inputs.flatten

/-- The `pdfPages.length > 10` batching loop of `convertImagesWithApi`
(conversion.ts): each round merges the running result (`InputFile1`)
with the next up-to-9 not-yet-merged documents (`InputFile2..10`).
Returns the list of calls made (each call is its input list) and the
final document. -/
def mergeBatchesGo (fuel : Nat) (current : MDoc) (rest : List MDoc) :
    List (List MDoc) × MDoc :=
  match fuel, rest with
  | _, [] => ([], current)
  | 0, _ => ([], current)
  | fuel + 1, r :: rs =>
      let batch := (r :: rs).take 9
      let inputs := current :: batch
      let next := mergeBatchesGo fuel (apiMergeCall inputs) ((r :: rs).drop 9)
      (inputs :: next.1, next.2)

def mergeBatchesAux (current : MDoc) (rest : List MDoc) : List (List MDoc) × MDoc :=
  mergeBatchesGo rest.length current rest

/-- `convertImagesWithApi`'s merge phase (conversion.ts): one page is
returned directly; two pages use the two-input endpoint; more use the
multi endpoint on the first (up to) 10 pages and then, beyond 10, the
batching loop.  An empty list reaches `throw new Error("Invalid PDF
merge state")`, modelled as `none`.  Returns the calls made and the
final document. -/
def convertImagesWithApiCalls (pdfPages : List MDoc) :
    Option (List (List MDoc) × MDoc) :=
  match pdfPages with
  | [] => none
  | [p] => some ([], p)
  | [p, q] => some ([[p, q]], apiMergeCall [p, q])
  | _ =>
      let firstInputs := pdfPages.take 10
      let merged := apiMergeCall firstInputs
      if 10 < pdfPages.length then
        let next := mergeBatchesAux merged (pdfPages.drop 10)
        some (firstInputs :: next.1, next.2)
      else
        some ([firstInputs], merged)

/-- Outcome of one strategy tier of the image chain on the valid URL
list. -/
def tierResult (remote pdfkit fallback : List String → Except String Bytes)
    (v : List String) : Tier → Except String Bytes
  | Tier.remoteApi => remote v
  | Tier.pdfKit => pdfkit v
  | Tier.simpleFallback => fallback v

/-- The tiers `convertImagesToPdfBuffer` can run: the Cloudmersive tier
is in the chain only when an API key is configured. -/
def allowedTiers (hasApiKey : Bool) : List Tier :=
  if hasApiKey then [Tier.remoteApi, Tier.pdfKit, Tier.simpleFallback]
  else [Tier.pdfKit, Tier.simpleFallback]

/-- An element drawn onto a pdf-lib page: `createSimplePdfFromUrls`
only ever draws text, but the embedding domain also has images so that
"embeds no image bytes" is a contentful statement. -/
inductive PdfElement where
  | text (s : String)
  | image (bytes : List Nat)
deriving DecidableEq, Repr

/-- A page built by `createSimplePdfFromUrls`. -/
structure SimplePage where
  elements : List PdfElement
deriving DecidableEq, Repr

/-- URL truncation in `createSimplePdfFromUrls`:
`url.length > 80 ? url.substring(0, 77) + "..." : url`. -/
def displayUrl (url : String) : String :=
  if 80 < url.length then ((url.toList.take 77).asString) ++ "..." else url

/-- The URL-listing loop of `createSimplePdfFromUrls`: iterate over the
first (at most) 30 URLs, drawing one line per URL and moving the cursor
down 15 points; if the cursor drops below 50 a "... and N more" line is
drawn and the loop stops.  `total` is `urls.length`. -/
def urlEntriesGo (total : Nat) : Int → List (Nat × String) → List String
  | _, [] => []
  | y, (i, url) :: rest =>
      let entry := Nat.repr (i + 1) ++ ". " ++ displayUrl url
      let y2 := y - 15
      if y2 < 50 then
        [entry, "... and " ++ Nat.repr (total - i - 1) ++ " more"]
      else
        entry :: urlEntriesGo total y2 rest

/-- `createSimplePdfFromUrls` (conversion.ts): a two-page pdf-lib
document — a cover page with the image count, the generation date and
two fallback notes, and a references page listing up to the first 30
source URLs as plain text.  `height` is the pdf-lib default page
height; `today` is `new Date().toLocaleDateString()`. -/
def createSimplePdfFromUrls (height : Int) (today : String) (urls : List String) :
    List SimplePage :=
  let cover : SimplePage :=
    { elements := [
        PdfElement.text "PDF Document",
        PdfElement.text ("Contains " ++ Nat.repr urls.length ++ " image" ++
          (if urls.length ≠ 1 then "s" else "")),
        PdfElement.text ("Generated on " ++ today),
        PdfElement.text "Note: Server-side image embedding failed.",
        PdfElement.text "Please try client-side conversion instead." ] }
  let refsPage : SimplePage :=
    { elements :=
        PdfElement.text "Image References:" ::
          (urlEntriesGo urls.length (height - 100) (urls.take 30).enum).map PdfElement.text }
  [cover, refsPage]

/-- A freshly created `pdf_to_word` job, exactly as `startConversion`
inserts it. -/
def sampleJobPdfToWord : Conversion :=
  { userId := "alice", status := Status.processing, type := ConversionType.pdf_to_word,
    pdfFileId := some "pdfblob", fileName := "doc.pdf",
    createdAt := 0, updatedAt := 0, expiresAt := oneHourMs }

/-- A `convertPdfToWord` environment with no `CLOUDMERSIVE_API_KEY`
configured. -/
def worldNoApiKey : PdfToWordWorld :=
  { apiKey := none, getUrl := fun _ => none,
    download := fun _ => Except.error "network unreachable",
    convertApi := fun _ => Except.error "api unreachable",
    storeResult := fun _ => "docxblob", now := 7 }

/-- A job owned by alice, sitting in the table under id 1. -/
def sampleAliceJob : Conversion :=
  { userId := "alice", status := Status.completed, type := ConversionType.pdf_to_word,
    pdfFileId := some "resultblob", fileName := "secret.pdf",
    createdAt := 0, updatedAt := 0, expiresAt := oneHourMs }

/-- A job owned by bob, of the same type as `sampleAliceJob`. -/
def sampleBobJob : Conversion :=
  { userId := "bob", status := Status.processing, type := ConversionType.pdf_to_word,
    pdfFileId := some "bobblob", fileName := "bob.pdf",
    createdAt := 1, updatedAt := 1, expiresAt := oneHourMs }

/-- The `pdf_merger` job that `startPdfMergerConversion` inserts for a
single-element source list. -/
def sampleSingleSourceMergeJob : Conversion :=
  { userId := "carol", status := Status.processing, type := ConversionType.pdf_merger,
    sourceFileIds := some ["onlyblob"], fileName := "merged.pdf",
    createdAt := 0, updatedAt := 0, expiresAt := oneHourMs }

/-- A merge environment; its blob store holds nothing, which is
irrelevant for a run that fails validation before touching storage. -/
def sampleMergeWorldEmpty : MergeWorld :=
  { getUrl := fun _ => none, download := fun _ => Except.error "network unreachable",
    parsePdf := fun _ => none, storePdf := fun _ => Except.error "store unreachable",
    now := 9 }

/-- Source bytes for the merge scenario: document A has 2 pages,
document B has 5 pages, document C is corrupt. -/
def sampleParse : Bytes → Option (List Page) :=
  fun b =>
    if b = "A" then some [1, 2]
    else if b = "B" then some [11, 12, 13, 14, 15]
    else none

/-- A merge environment resolving blobs a, b, c to documents A, B, C. -/
def sampleMergeWorld : MergeWorld :=
  { getUrl := fun fid =>
      if fid = "a" then some "url-a"
      else if fid = "b" then some "url-b"
      else if fid = "c" then some "url-c" else none,
    download := fun url =>
      if url = "url-a" then Except.ok "A"
      else if url = "url-b" then Except.ok "B"
      else if url = "url-c" then Except.ok "C"
      else Except.error "network unreachable",
    parsePdf := sampleParse,
    storePdf := fun _ => Except.ok "mergedblob",
    now := 11 }

/-- A `merge_documents` job over sources A (2 pages), B (5 pages) and
the corrupt C. -/
def sampleMergeJob : Conversion :=
  { userId := "carol", status := Status.processing, type := ConversionType.pdf_merger,
    sourceFileIds := some ["a", "b", "c"], fileName := "merged.pdf",
    createdAt := 0, updatedAt := 0, expiresAt := oneHourMs }

/-- An expired job that references only a source blob — no result blob
was ever produced. -/
def expiredSourceJob : Conversion :=
  { userId := "dave", status := Status.failed, type := ConversionType.image_to_pdf,
    sourceFileIds := some ["srcblob"], fileName := "imgs.pdf",
    createdAt := 0, updatedAt := 0, expiresAt := 0 }

/-- Reaper state: one expired job and its still-stored source blob. -/
def sampleReaperState : ReaperState :=
  { conversions := [(1, expiredSourceJob)], storageKeys := ["srcblob"] }

/-- A fresh `image_to_pdf` job with one source image. -/
def sampleImagesJob : Conversion :=
  { userId := "erin", status := Status.processing, type := ConversionType.image_to_pdf,
    sourceFileIds := some ["img1"], fileName := "imgs.pdf",
    createdAt := 0, updatedAt := 0, expiresAt := oneHourMs }

/-- An images environment with no API key and every tier failing. -/
def sampleImagesWorldAllFail : ImagesWorld :=
  { getUrl := fun _ => some "url-img1", hasApiKey := false,
    remote := fun _ => Except.error "remote down",
    pdfkit := fun _ => Except.error "pdfkit down",
    fallback := fun _ => Except.error "fallback down",
    upload := fun _ => Except.ok "uploadedblob", now := 13 }

/-- An images environment with an API key configured and every tier
failing. -/
def sampleImagesWorldKeyAllFail : ImagesWorld :=
  { sampleImagesWorldAllFail with hasApiKey := true }

/-- Twelve single-page documents, enough to exercise the beyond-10
batching round of `convertImagesWithApi`. -/
def twelveSinglePageDocs : List MDoc := (List.range 12).map (fun i => [i])

/-- Thirty-one source URLs, enough to exercise the 30-entry truncation
of `createSimplePdfFromUrls`. -/
def thirtyOneUrls : List String := (List.range 31).map (fun i => "https://img/" ++ Nat.repr i)

/-
Theorems.  Shared helper lemmas come first, then one theorem per claim
(with its witness or counterexample).
-/

theorem exceptBindErr {ε α β : Type} (e : ε) (f : α → Except ε β) :
    (Except.error e >>= f : Except ε β) = Except.error e := rfl

theorem exceptBindOk {ε α β : Type} (a : α) (f : α → Except ε β) :
    (Except.ok a >>= f : Except ε β) = f a := rfl

theorem updateConversionJob_frame (job : Conversion) (p : Option StorageId)
    (s : Option Status) (e : Option String) (now : Nat) :
    (updateConversionJob job p s e now).userId = job.userId ∧
    (updateConversionJob job p s e now).type = job.type ∧
    (updateConversionJob job p s e now).docxFileId = job.docxFileId ∧
    (updateConversionJob job p s e now).fileName = job.fileName ∧
    (updateConversionJob job p s e now).createdAt = job.createdAt ∧
    (updateConversionJob job p s e now).expiresAt = job.expiresAt ∧
    (updateConversionJob job p s e now).sourceFileIds = job.sourceFileIds ∧
    (updateConversionJob job p s e now).completedAt = job.completedAt := by
  refine ⟨rfl, rfl, rfl, rfl, rfl, rfl, rfl, rfl⟩

theorem updateConversionJob_status_some (job : Conversion) (p : Option StorageId)
    (st : Status) (e : Option String) (now : Nat) :
    (updateConversionJob job p (some st) e now).status = st := rfl

theorem updateConversionJob_pdf_some (job : Conversion) (sid : StorageId)
    (s : Option Status) (e : Option String) (now : Nat) (h : sid ≠ "") :
    (updateConversionJob job (some sid) s e now).pdfFileId = some sid := by
  simp [updateConversionJob, dbPatch, truthyString, h]

theorem updateConversionJob_pdf_none (job : Conversion) (s : Option Status)
    (e : Option String) (now : Nat) :
    (updateConversionJob job none s e now).pdfFileId = job.pdfFileId := rfl

theorem updateConversionJob_error_some (job : Conversion) (p : Option StorageId)
    (s : Option Status) (msg : String) (now : Nat) (h : msg ≠ "") :
    (updateConversionJob job p s (some msg) now).error = some msg := by
  simp [updateConversionJob, dbPatch, truthyString, h]

theorem updateConversionJob_error_none (job : Conversion) (p : Option StorageId)
    (s : Option Status) (now : Nat) :
    (updateConversionJob job p s none now).error = job.error := rfl

theorem markConversionComplete_frame (job : Conversion) (success : Bool)
    (d : Option StorageId) (now : Nat) :
    (markConversionComplete job success d now).userId = job.userId ∧
    (markConversionComplete job success d now).type = job.type ∧
    (markConversionComplete job success d now).pdfFileId = job.pdfFileId ∧
    (markConversionComplete job success d now).fileName = job.fileName ∧
    (markConversionComplete job success d now).error = job.error ∧
    (markConversionComplete job success d now).createdAt = job.createdAt ∧
    (markConversionComplete job success d now).expiresAt = job.expiresAt ∧
    (markConversionComplete job success d now).sourceFileIds = job.sourceFileIds ∧
    (markConversionComplete job success d now).completedAt = job.completedAt := by
  refine ⟨rfl, rfl, rfl, rfl, rfl, rfl, rfl, rfl, rfl⟩

/-- C10: For an unauthenticated caller, `listConversions` answers with
the empty list rather than an error, while each of the three
job-creation mutations raises "Not authenticated". -/
theorem C10_unauthenticated_behavior
    (getUrl : StorageId → Option String) (t : ConversionType) (table : List Conversion)
    (pdfFileId : StorageId) (sourceFileIds : List StorageId) (fileName : String) (now : Nat) :
    listConversions getUrl none t table = [] ∧
    startConversion none pdfFileId fileName now = Except.error "Not authenticated" ∧
    startImageToPdfConversion none sourceFileIds fileName now =
      Except.error "Not authenticated" ∧
    startPdfMergerConversion none sourceFileIds fileName now =
      Except.error "Not authenticated" :=
  ⟨rfl, rfl, rfl, rfl⟩

/-- C9: `updateConversionJob` and `markConversionComplete` merge only
the fields of the patch object they build (`updatedAt` is always part
of it); every job field outside that object keeps its value, and an
optional argument that is absent leaves its field untouched. -/
theorem C9_patch_frame (job : Conversion) (p : Option StorageId)
    (s : Option Status) (e : Option String) (success : Bool)
    (d : Option StorageId) (now : Nat) :
    ((updateConversionJob job p s e now).userId = job.userId ∧
     (updateConversionJob job p s e now).type = job.type ∧
     (updateConversionJob job p s e now).docxFileId = job.docxFileId ∧
     (updateConversionJob job p s e now).fileName = job.fileName ∧
     (updateConversionJob job p s e now).createdAt = job.createdAt ∧
     (updateConversionJob job p s e now).expiresAt = job.expiresAt ∧
     (updateConversionJob job p s e now).sourceFileIds = job.sourceFileIds ∧
     (updateConversionJob job p s e now).completedAt = job.completedAt ∧
     (p = none → (updateConversionJob job p s e now).pdfFileId = job.pdfFileId) ∧
     (s = none → (updateConversionJob job p s e now).status = job.status) ∧
     (e = none → (updateConversionJob job p s e now).error = job.error)) ∧
    ((markConversionComplete job success d now).userId = job.userId ∧
     (markConversionComplete job success d now).type = job.type ∧
     (markConversionComplete job success d now).pdfFileId = job.pdfFileId ∧
     (markConversionComplete job success d now).fileName = job.fileName ∧
     (markConversionComplete job success d now).error = job.error ∧
     (markConversionComplete job success d now).createdAt = job.createdAt ∧
     (markConversionComplete job success d now).expiresAt = job.expiresAt ∧
     (markConversionComplete job success d now).sourceFileIds = job.sourceFileIds ∧
     (markConversionComplete job success d now).completedAt = job.completedAt ∧
     (d = none → (markConversionComplete job success d now).docxFileId = job.docxFileId)) := by
  constructor
  · refine ⟨rfl, rfl, rfl, rfl, rfl, rfl, rfl, rfl, ?_, ?_, ?_⟩
    · rintro rfl; rfl
    · rintro rfl; rfl
    · rintro rfl; rfl
  · refine ⟨rfl, rfl, rfl, rfl, rfl, rfl, rfl, rfl, rfl, ?_⟩
    rintro rfl; rfl

/-- C9 witness: the frame property evaluated on a concrete job and a
patch that supplies no optional field. -/
theorem C9_patch_frame_witness :
    ((updateConversionJob sampleJobPdfToWord none none none 42).userId =
       sampleJobPdfToWord.userId ∧
     (updateConversionJob sampleJobPdfToWord none none none 42).type =
       sampleJobPdfToWord.type ∧
     (updateConversionJob sampleJobPdfToWord none none none 42).docxFileId =
       sampleJobPdfToWord.docxFileId ∧
     (updateConversionJob sampleJobPdfToWord none none none 42).fileName =
       sampleJobPdfToWord.fileName ∧
     (updateConversionJob sampleJobPdfToWord none none none 42).createdAt =
       sampleJobPdfToWord.createdAt ∧
     (updateConversionJob sampleJobPdfToWord none none none 42).expiresAt =
       sampleJobPdfToWord.expiresAt ∧
     (updateConversionJob sampleJobPdfToWord none none none 42).sourceFileIds =
       sampleJobPdfToWord.sourceFileIds ∧
     (updateConversionJob sampleJobPdfToWord none none none 42).completedAt =
       sampleJobPdfToWord.completedAt ∧
     (none = (none : Option StorageId) →
       (updateConversionJob sampleJobPdfToWord none none none 42).pdfFileId =
         sampleJobPdfToWord.pdfFileId) ∧
     (none = (none : Option Status) →
       (updateConversionJob sampleJobPdfToWord none none none 42).status =
         sampleJobPdfToWord.status) ∧
     (none = (none : Option String) →
       (updateConversionJob sampleJobPdfToWord none none none 42).error =
         sampleJobPdfToWord.error)) ∧
    ((markConversionComplete sampleJobPdfToWord true none 42).userId =
       sampleJobPdfToWord.userId ∧
     (markConversionComplete sampleJobPdfToWord true none 42).type =
       sampleJobPdfToWord.type ∧
     (markConversionComplete sampleJobPdfToWord true none 42).pdfFileId =
       sampleJobPdfToWord.pdfFileId ∧
     (markConversionComplete sampleJobPdfToWord true none 42).fileName =
       sampleJobPdfToWord.fileName ∧
     (markConversionComplete sampleJobPdfToWord true none 42).error =
       sampleJobPdfToWord.error ∧
     (markConversionComplete sampleJobPdfToWord true none 42).createdAt =
       sampleJobPdfToWord.createdAt ∧
     (markConversionComplete sampleJobPdfToWord true none 42).expiresAt =
       sampleJobPdfToWord.expiresAt ∧
     (markConversionComplete sampleJobPdfToWord true none 42).sourceFileIds =
       sampleJobPdfToWord.sourceFileIds ∧
     (markConversionComplete sampleJobPdfToWord true none 42).completedAt =
       sampleJobPdfToWord.completedAt ∧
     (none = (none : Option StorageId) →
       (markConversionComplete sampleJobPdfToWord true none 42).docxFileId =
         sampleJobPdfToWord.docxFileId)) :=
  C9_patch_frame sampleJobPdfToWord none none none true none 42

/-- C1 counterexample: `convertPdfToWord` on a fresh `pdf_to_word` job
with no API key configured ends with `status = failed` and no result
blob, but the `error` field is left unset — `markConversionComplete`
takes no error argument — so "error is set iff status is failed" and
"error references the missing configuration" are both false here. -/
theorem C1_counterexample :
    (convertPdfToWordRun worldNoApiKey sampleJobPdfToWord).1.status = Status.failed ∧
    (convertPdfToWordRun worldNoApiKey sampleJobPdfToWord).1.docxFileId = none ∧
    (convertPdfToWordRun worldNoApiKey sampleJobPdfToWord).1.error = none ∧
    (convertPdfToWordRun worldNoApiKey sampleJobPdfToWord).2 =
      Except.error "Cloudmersive API key not found in environment variables" :=
  ⟨rfl, rfl, rfl, rfl⟩

/-- C2 counterexample: `getConversion` performs no ownership check — a
caller authenticated as bob retrieves alice's job (it is `some`, not
`none`, and carries alice's record), so a non-owner does observe the
job. -/
theorem C2_counterexample :
    (getConversion (fun _ => none) (some "bob") [(1, sampleAliceJob)] 1).isSome = true ∧
    Option.map (fun d => d.job.userId)
        (getConversion (fun _ => none) (some "bob") [(1, sampleAliceJob)] 1) =
      some "alice" ∧
    Option.map (fun d => d.job)
        (getConversion (fun _ => none) (some "bob") [(1, sampleAliceJob)] 1) =
      some sampleAliceJob :=
  ⟨rfl, rfl, rfl⟩

/-- C3 counterexample: creating a `pdf_merger` job with a single source
blob succeeds synchronously — `startPdfMergerConversion` raises no
validation error — and the insufficient-source-count error only appears
when the detached `mergePdfFiles` task runs and marks the job failed. -/
theorem C3_counterexample :
    startPdfMergerConversion (some "carol") ["onlyblob"] "merged.pdf" 0 =
      Except.ok (sampleSingleSourceMergeJob, ScheduledAction.mergePdfFilesTask) ∧
    (mergePdfFilesRun sampleMergeWorldEmpty sampleSingleSourceMergeJob).1.status =
      Status.failed ∧
    (mergePdfFilesRun sampleMergeWorldEmpty sampleSingleSourceMergeJob).1.error =
      some "At least two PDF files are required for merging" :=
  ⟨rfl, rfl, rfl⟩

/-- C4 counterexample: one Reaper sweep over an expired job whose only
referenced blob is a source blob deletes the job record but leaves the
source blob in storage — the sweep never touches `sourceFileIds`. -/
theorem C4_counterexample :
    getJob (cleanupExpiredConversions 10 sampleReaperState).1 1 = none ∧
    "srcblob" ∈ (cleanupExpiredConversions 10 sampleReaperState).1.storageKeys ∧
    expiredSourceJob.sourceFileIds = some ["srcblob"] := by
  refine ⟨rfl, ?_, rfl⟩
  decide

/-- C6 counterexample: with no API key configured the chain never
attempts the remote-API tier, yet the job still fails when the two
remaining tiers fail — so it is not the case that every job attempts
the tiers remote-API, PDFKit, minimal-fallback and fails only when all
of them have failed. -/
theorem C6_counterexample :
    (convertImagesToPdfBufferTrace false
        (fun _ => Except.error "remote down") (fun _ => Except.error "pdfkit down")
        (fun _ => Except.error "fallback down") [some "u1"]).1 =
      [Tier.pdfKit, Tier.simpleFallback] ∧
    (convertImagesToPdfBufferTrace false
        (fun _ => Except.error "remote down") (fun _ => Except.error "pdfkit down")
        (fun _ => Except.error "fallback down") [some "u1"]).2 =
      Except.error "Failed to generate PDF: fallback down" ∧
    Tier.remoteApi ∉
      (convertImagesToPdfBufferTrace false
        (fun _ => Except.error "remote down") (fun _ => Except.error "pdfkit down")
        (fun _ => Except.error "fallback down") [some "u1"]).1 := by
  refine ⟨rfl, rfl, ?_⟩
  decide

theorem convertImagesToPdfRun_ok (w : ImagesWorld) (job : Conversion) (sid : StorageId)
    (htype : job.type = ConversionType.image_to_pdf)
    (h : convertImagesToPdfResult w job = Except.ok sid) :
    convertImagesToPdfRun w job =
      (updateConversionJob job (some sid) (some Status.completed) none w.now,
       Except.ok sid) := by
  unfold convertImagesToPdfRun
  rw [if_neg (by simp [htype]), h]

theorem convertImagesToPdfRun_err (w : ImagesWorld) (job : Conversion) (e : String)
    (htype : job.type = ConversionType.image_to_pdf)
    (h : convertImagesToPdfResult w job = Except.error e) :
    convertImagesToPdfRun w job =
      (updateConversionJob job none (some Status.failed)
         (some (jsOr e "Unknown error")) w.now,
       Except.error e) := by
  unfold convertImagesToPdfRun
  rw [if_neg (by simp [htype]), h]

theorem mergePdfFilesRun_ok (w : MergeWorld) (job : Conversion) (sid : StorageId)
    (h : mergePdfFilesResult w job = Except.ok sid) :
    mergePdfFilesRun w job =
      (updateConversionJob job (some sid) (some Status.completed) none w.now,
       Except.ok sid) := by
  unfold mergePdfFilesRun
  rw [h]

theorem mergePdfFilesRun_err (w : MergeWorld) (job : Conversion) (e : String)
    (h : mergePdfFilesResult w job = Except.error e) :
    mergePdfFilesRun w job =
      (updateConversionJob job none (some Status.failed) (some e) w.now,
       Except.error e) := by
  unfold mergePdfFilesRun
  rw [h]

theorem jsOr_ne_empty (s m : String) (hm : m ≠ "") : jsOr s m ≠ "" := by
  unfold jsOr
  split
  · exact hm
  · assumption

/-- C2 amended: `listConversions` is owner-scoped — every listed job
belongs to the caller, and its output depends only on the caller's own
rows of the requested type, so runs differing only in other users' jobs
are indistinguishable — but `getConversion` performs no ownership check
at all: its result is the same for every caller (it never reads the
caller identity), so any caller holding a job id observes the job. -/
theorem C2_owner_visibility :
    (∀ (getUrl : StorageId → Option String) (u : UserId) (t : ConversionType)
        (table1 table2 : List Conversion),
        table1.filter (fun c => decide (c.userId = u) && decide (c.type = t)) =
          table2.filter (fun c => decide (c.userId = u) && decide (c.type = t)) →
        listConversions getUrl (some u) t table1 =
          listConversions getUrl (some u) t table2) ∧
    (∀ (getUrl : StorageId → Option String) (u : UserId) (t : ConversionType)
        (table : List Conversion) (L : ConversionListing),
        L ∈ listConversions getUrl (some u) t table → L.job.userId = u) ∧
    (∀ (getUrl : StorageId → Option String) (a1 a2 : Option UserId)
        (db : List (ConversionId × Conversion)) (cid : ConversionId),
        getConversion getUrl a1 db cid = getConversion getUrl a2 db cid) := by
  refine ⟨?_, ?_, ?_⟩
  · intro g u t t1 t2 h
    simp only [listConversions]
    rw [h]
  · intro g u t table L hL
    simp only [listConversions, List.mem_map, List.mem_reverse, List.mem_filter,
      Bool.and_eq_true, decide_eq_true_eq] at hL
    obtain ⟨c, ⟨_, hu, _⟩, rfl⟩ := hL
    exact hu
  · intro g a1 a2 db cid
    rfl

/-- C2 witness: for alice, adding bob's job to the table does not change
`listConversions`' answer. -/
theorem C2_owner_visibility_witness :
    listConversions (fun _ => none) (some "alice") ConversionType.pdf_to_word
        [sampleAliceJob, sampleBobJob] =
      listConversions (fun _ => none) (some "alice") ConversionType.pdf_to_word
        [sampleAliceJob] :=
  C2_owner_visibility.1 (fun _ => none) "alice" ConversionType.pdf_to_word
    [sampleAliceJob, sampleBobJob] [sampleAliceJob] (by decide)

/-- C3 amended: for a `merge_documents` creation request with fewer than
two source blob ids, `startPdfMergerConversion` succeeds synchronously
(no validation error reaches the caller) and schedules `mergePdfFiles`;
the insufficient-source-count error is raised inside that detached task,
which marks the job failed with the error message. -/
theorem C3_deferred_validation (u fileName : String) (srcIds : List StorageId)
    (now : Nat) (w : MergeWorld) (job : Conversion) (sched : ScheduledAction)
    (hlen : srcIds.length < 2)
    (hcreate : startPdfMergerConversion (some u) srcIds fileName now =
      Except.ok (job, sched)) :
    sched = ScheduledAction.mergePdfFilesTask ∧
    job.status = Status.processing ∧
    (mergePdfFilesRun w job).1.status = Status.failed ∧
    (mergePdfFilesRun w job).1.error =
      some "At least two PDF files are required for merging" ∧
    (mergePdfFilesRun w job).2 =
      Except.error "At least two PDF files are required for merging" := by
  simp only [startPdfMergerConversion, Except.ok.injEq, Prod.mk.injEq] at hcreate
  obtain ⟨hjob, hsched⟩ := hcreate
  subst hjob
  subst hsched
  refine ⟨rfl, rfl, ?_, ?_, ?_⟩
  all_goals
    simp [mergePdfFilesRun, mergePdfFilesResult, mergePdfFilesCore, hlen,
      exceptBindErr, exceptBindOk, updateConversionJob, dbPatch, truthyString]

/-- C3 witness: the deferred-validation behavior evaluated on the
concrete single-source merge request. -/
theorem C3_deferred_validation_witness :
    ScheduledAction.mergePdfFilesTask = ScheduledAction.mergePdfFilesTask ∧
    sampleSingleSourceMergeJob.status = Status.processing ∧
    (mergePdfFilesRun sampleMergeWorldEmpty sampleSingleSourceMergeJob).1.status =
      Status.failed ∧
    (mergePdfFilesRun sampleMergeWorldEmpty sampleSingleSourceMergeJob).1.error =
      some "At least two PDF files are required for merging" ∧
    (mergePdfFilesRun sampleMergeWorldEmpty sampleSingleSourceMergeJob).2 =
      Except.error "At least two PDF files are required for merging" :=
  C3_deferred_validation "carol" "merged.pdf" ["onlyblob"] 0 sampleMergeWorldEmpty
    sampleSingleSourceMergeJob ScheduledAction.mergePdfFilesTask (by decide) rfl

/-- C1 amended: after the dispatched task's terminal write on a freshly
created job, the result blob id is set iff the status is `completed`;
the error field is set iff the status is `failed` for `image_to_pdf`
and `pdf_merger` jobs; but a failing `convert_to_editable`
(`pdf_to_word`) task — in particular one with a missing API key — ends
with status `failed`, no result blob id, and the error field left
unset, because `markConversionComplete` accepts no error argument. -/
theorem C1_terminal_write_fields :
    (∀ (w : PdfToWordWorld) (job : Conversion),
        truthyString w.apiKey = none → job.docxFileId = none → job.error = none →
        (convertPdfToWordRun w job).1.status = Status.failed ∧
        (convertPdfToWordRun w job).1.docxFileId = none ∧
        (convertPdfToWordRun w job).1.error = none) ∧
    (∀ (w : PdfToWordWorld) (job : Conversion) (sid : StorageId),
        convertPdfToWordCore w job = Except.ok sid → sid ≠ "" → job.error = none →
        (convertPdfToWordRun w job).1.status = Status.completed ∧
        (convertPdfToWordRun w job).1.docxFileId = some sid ∧
        (convertPdfToWordRun w job).1.error = none) ∧
    (∀ (w : ImagesWorld) (job : Conversion),
        job.type = ConversionType.image_to_pdf → job.error = none → job.pdfFileId = none →
        (∀ sid, (convertImagesToPdfRun w job).2 = Except.ok sid → sid ≠ "" →
            (convertImagesToPdfRun w job).1.status = Status.completed ∧
            (convertImagesToPdfRun w job).1.pdfFileId = some sid ∧
            (convertImagesToPdfRun w job).1.error = none) ∧
        (∀ e, (convertImagesToPdfRun w job).2 = Except.error e →
            (convertImagesToPdfRun w job).1.status = Status.failed ∧
            (convertImagesToPdfRun w job).1.pdfFileId = none ∧
            ∃ msg, msg ≠ "" ∧ (convertImagesToPdfRun w job).1.error = some msg)) ∧
    (∀ (w : MergeWorld) (job : Conversion),
        job.error = none → job.pdfFileId = none →
        (∀ sid, (mergePdfFilesRun w job).2 = Except.ok sid → sid ≠ "" →
            (mergePdfFilesRun w job).1.status = Status.completed ∧
            (mergePdfFilesRun w job).1.pdfFileId = some sid ∧
            (mergePdfFilesRun w job).1.error = none) ∧
        (∀ e, (mergePdfFilesRun w job).2 = Except.error e → e ≠ "" →
            (mergePdfFilesRun w job).1.status = Status.failed ∧
            (mergePdfFilesRun w job).1.pdfFileId = none ∧
            (mergePdfFilesRun w job).1.error = some e)) := by
  refine ⟨?_, ?_, ?_, ?_⟩
  · intro w job hkey hdocx herr
    have hcore : ∃ e, convertPdfToWordCore w job = Except.error e := by
      refine ⟨"Cloudmersive API key not found in environment variables", ?_⟩
      simp [convertPdfToWordCore, hkey, exceptBindErr]
    obtain ⟨e, hcore⟩ := hcore
    simp [convertPdfToWordRun, hcore, markConversionComplete, dbPatch, truthyString,
      hdocx, herr]
  · intro w job sid hcore hsid herr
    simp [convertPdfToWordRun, hcore, markConversionComplete, dbPatch, truthyString,
      hsid, herr]
  · intro w job htype herr hpdf
    constructor
    · intro sid hok hsid
      rcases hres : convertImagesToPdfResult w job with e | sid2
      · rw [convertImagesToPdfRun_err w job e htype hres] at hok
        simp at hok
      · have := convertImagesToPdfRun_ok w job sid2 htype hres
        rw [this] at hok ⊢
        simp at hok
        subst hok
        exact ⟨updateConversionJob_status_some job _ _ _ _,
          updateConversionJob_pdf_some job _ _ _ _ hsid,
          by rw [updateConversionJob_error_none]; exact herr⟩
    · intro e herr2
      rcases hres : convertImagesToPdfResult w job with e2 | sid2
      · have hrun := convertImagesToPdfRun_err w job e2 htype hres
        rw [hrun] at herr2 ⊢
        simp at herr2
        subst herr2
        refine ⟨updateConversionJob_status_some job _ _ _ _,
          by rw [updateConversionJob_pdf_none]; exact hpdf,
          ⟨jsOr e2 "Unknown error", jsOr_ne_empty e2 "Unknown error" (by decide), ?_⟩⟩
        exact updateConversionJob_error_some job _ _ _ _
          (jsOr_ne_empty e2 "Unknown error" (by decide))
      · rw [convertImagesToPdfRun_ok w job sid2 htype hres] at herr2
        simp at herr2
  · intro w job herr hpdf
    constructor
    · intro sid hok hsid
      rcases hres : mergePdfFilesResult w job with e | sid2
      · rw [mergePdfFilesRun_err w job e hres] at hok
        simp at hok
      · have hrun := mergePdfFilesRun_ok w job sid2 hres
        rw [hrun] at hok ⊢
        simp at hok
        subst hok
        exact ⟨updateConversionJob_status_some job _ _ _ _,
          updateConversionJob_pdf_some job _ _ _ _ hsid,
          by rw [updateConversionJob_error_none]; exact herr⟩
    · intro e herr2 hne
      rcases hres : mergePdfFilesResult w job with e2 | sid2
      · have hrun := mergePdfFilesRun_err w job e2 hres
        rw [hrun] at herr2 ⊢
        simp at herr2
        subst herr2
        exact ⟨updateConversionJob_status_some job _ _ _ _,
          by rw [updateConversionJob_pdf_none]; exact hpdf,
          updateConversionJob_error_some job _ _ _ _ hne⟩
      · rw [mergePdfFilesRun_ok w job sid2 hres] at herr2
        simp at herr2

/-- C1 witness: the missing-API-key pdf_to_word scenario evaluated on
the concrete fresh job — status failed, no blob, no error string. -/
theorem C1_terminal_write_fields_witness :
    (convertPdfToWordRun worldNoApiKey sampleJobPdfToWord).1.status = Status.failed ∧
    (convertPdfToWordRun worldNoApiKey sampleJobPdfToWord).1.docxFileId = none ∧
    (convertPdfToWordRun worldNoApiKey sampleJobPdfToWord).1.error = none :=
  C1_terminal_write_fields.1 worldNoApiKey sampleJobPdfToWord rfl rfl rfl

theorem copyAllPages_eq_flatten (parsePdf : Bytes → Option (List Page)) (docs : List Bytes) :
    copyAllPages parsePdf docs = (docs.filterMap parsePdf).flatten := by
  induction docs with
  | nil => rfl
  | cons b rest ih =>
    unfold copyAllPages
    rcases hp : parsePdf b with _ | pages <;> simp [List.filterMap_cons, hp, ih]

/-- C5: the merge strategy copies the pages of every readable source in
their original order, appending sources in the caller-specified order;
a source that fails to open is skipped without failing the job, which
still completes with the merged result stored. -/
theorem C5_merge_copies_readable_sources
    (w : MergeWorld) (job : Conversion) (ids : List StorageId) (fetched : List Bytes)
    (sid : StorageId)
    (hsrc : job.sourceFileIds = some ids) (hlen : 2 ≤ ids.length)
    (hfetch : ids.mapM (fetchSource w) = Except.ok fetched)
    (hstore : w.storePdf (copyAllPages w.parsePdf fetched) = Except.ok sid)
    (hsid : sid ≠ "") (herr : job.error = none) :
    mergePdfFilesCore w job = Except.ok (copyAllPages w.parsePdf fetched) ∧
    copyAllPages w.parsePdf fetched = (fetched.filterMap w.parsePdf).flatten ∧
    (mergePdfFilesRun w job).1.status = Status.completed ∧
    (mergePdfFilesRun w job).1.pdfFileId = some sid ∧
    (mergePdfFilesRun w job).1.error = none ∧
    (mergePdfFilesRun w job).2 = Except.ok sid := by
  have h2 : ¬ (ids.length < 2) := Nat.not_lt.mpr hlen
  have hloop : List.mapM.loop (fetchSource w) ids [] = Except.ok fetched := hfetch
  have hcore : mergePdfFilesCore w job = Except.ok (copyAllPages w.parsePdf fetched) := by
    simp [mergePdfFilesCore, hsrc, h2, hloop, exceptBindOk]
  have hresult : mergePdfFilesResult w job = Except.ok sid := by
    simp [mergePdfFilesResult, hcore, exceptBindOk, hstore]
  have hrun := mergePdfFilesRun_ok w job sid hresult
  rw [hrun]
  exact ⟨hcore, copyAllPages_eq_flatten w.parsePdf fetched,
    updateConversionJob_status_some job _ _ _ _,
    updateConversionJob_pdf_some job _ _ _ _ hsid,
    by rw [updateConversionJob_error_none]; exact herr,
    rfl⟩

/-- C5 witness: merging A (2 pages) and B (5 pages) with a corrupt C
skipped yields exactly the 7 pages of A then B, and the job completes. -/
theorem C5_merge_copies_readable_sources_witness :
    copyAllPages sampleMergeWorld.parsePdf ["A", "B", "C"] =
      [1, 2, 11, 12, 13, 14, 15] ∧
    (mergePdfFilesCore sampleMergeWorld sampleMergeJob =
      Except.ok (copyAllPages sampleMergeWorld.parsePdf ["A", "B", "C"]) ∧
    copyAllPages sampleMergeWorld.parsePdf ["A", "B", "C"] =
      ((["A", "B", "C"] : List Bytes).filterMap sampleMergeWorld.parsePdf).flatten ∧
    (mergePdfFilesRun sampleMergeWorld sampleMergeJob).1.status = Status.completed ∧
    (mergePdfFilesRun sampleMergeWorld sampleMergeJob).1.pdfFileId = some "mergedblob" ∧
    (mergePdfFilesRun sampleMergeWorld sampleMergeJob).1.error = none ∧
    (mergePdfFilesRun sampleMergeWorld sampleMergeJob).2 = Except.ok "mergedblob") :=
  ⟨by decide,
   C5_merge_copies_readable_sources sampleMergeWorld sampleMergeJob ["a", "b", "c"]
     ["A", "B", "C"] "mergedblob" rfl (by decide) rfl rfl (by decide) rfl⟩

theorem cleanupJobBlobs_subset (st : List StorageId) (c : Conversion) :
    cleanupJobBlobs st c ⊆ st := by
  unfold cleanupJobBlobs
  rcases c.pdfFileId with _ | f <;> rcases c.docxFileId with _ | g <;>
    intro x hx
  · exact hx
  · exact List.mem_of_mem_erase hx
  · exact List.mem_of_mem_erase hx
  · exact List.mem_of_mem_erase (List.mem_of_mem_erase hx)

theorem cleanupJobBlobs_nodup (st : List StorageId) (c : Conversion) (h : st.Nodup) :
    (cleanupJobBlobs st c).Nodup := by
  unfold cleanupJobBlobs
  rcases c.pdfFileId with _ | f <;> rcases c.docxFileId with _ | g
  · exact h
  · exact h.erase g
  · exact h.erase f
  · exact (h.erase f).erase g

theorem cleanupJobBlobs_mem (st : List StorageId) (c : Conversion) (b : StorageId)
    (hb : b ∈ st) (h1 : c.pdfFileId ≠ some b) (h2 : c.docxFileId ≠ some b) :
    b ∈ cleanupJobBlobs st c := by
  unfold cleanupJobBlobs
  rcases hp : c.pdfFileId with _ | f <;> rcases hd : c.docxFileId with _ | g
  · exact hb
  · have hbg : b ≠ g := fun h => h2 (by rw [hd, h])
    exact (List.mem_erase_of_ne hbg).mpr hb
  · have hbf : b ≠ f := fun h => h1 (by rw [hp, h])
    exact (List.mem_erase_of_ne hbf).mpr hb
  · have hbg : b ≠ g := fun h => h2 (by rw [hd, h])
    have hbf : b ≠ f := fun h => h1 (by rw [hp, h])
    exact (List.mem_erase_of_ne hbg).mpr ((List.mem_erase_of_ne hbf).mpr hb)

theorem cleanupJobBlobs_not_mem (st : List StorageId) (c : Conversion) (f : StorageId)
    (h : st.Nodup) (hf : c.pdfFileId = some f ∨ c.docxFileId = some f) :
    f ∉ cleanupJobBlobs st c := by
  unfold cleanupJobBlobs
  rcases hf with hf | hf
  · rw [hf]
    rcases c.docxFileId with _ | g
    · intro hx
      exact ((h.mem_erase_iff).mp hx).1 rfl
    · intro hx
      exact ((h.mem_erase_iff).mp (List.mem_of_mem_erase hx)).1 rfl
  · rw [hf]
    rcases c.pdfFileId with _ | g
    · intro hx
      exact ((h.mem_erase_iff).mp hx).1 rfl
    · intro hx
      exact (((h.erase g).mem_erase_iff).mp hx).1 rfl

theorem foldCleanup_subset (l : List (ConversionId × Conversion)) :
    ∀ st : List StorageId,
      l.foldl (fun st p => cleanupJobBlobs st p.2) st ⊆ st := by
  induction l with
  | nil => intro st x hx; exact hx
  | cons q l ih =>
    intro st x hx
    exact cleanupJobBlobs_subset st q.2 (ih (cleanupJobBlobs st q.2) hx)

theorem foldCleanup_removes (l : List (ConversionId × Conversion)) :
    ∀ st : List StorageId, st.Nodup →
      ∀ p ∈ l, ∀ f : StorageId,
        (p.2.pdfFileId = some f ∨ p.2.docxFileId = some f) →
        f ∉ l.foldl (fun st p => cleanupJobBlobs st p.2) st := by
  induction l with
  | nil => intro st _ p hp; cases hp
  | cons q l ih =>
    intro st hnd p hp f hf
    rcases List.mem_cons.mp hp with rfl | hp
    · intro hx
      exact cleanupJobBlobs_not_mem st p.2 f hnd hf
        (foldCleanup_subset l (cleanupJobBlobs st p.2) hx)
    · exact ih (cleanupJobBlobs st q.2) (cleanupJobBlobs_nodup st q.2 hnd) p hp f hf

theorem foldCleanup_keeps (l : List (ConversionId × Conversion)) :
    ∀ st : List StorageId, ∀ b ∈ st,
      (∀ p ∈ l, p.2.pdfFileId ≠ some b ∧ p.2.docxFileId ≠ some b) →
      b ∈ l.foldl (fun st p => cleanupJobBlobs st p.2) st := by
  induction l with
  | nil => intro st b hb _; exact hb
  | cons q l ih =>
    intro st b hb hp
    have hq := hp q (List.mem_cons_self q l)
    exact ih (cleanupJobBlobs st q.2) b (cleanupJobBlobs_mem st q.2 b hb hq.1 hq.2)
      (fun p hpl => hp p (List.mem_cons_of_mem q hpl))

theorem keyLookupUnique (l : List (ConversionId × Conversion))
    (hnd : (l.map Prod.fst).Nodup) (id0 : ConversionId) (c c2 : Conversion)
    (h1 : (id0, c) ∈ l) (h2 : (id0, c2) ∈ l) : c2 = c := by
  induction l with
  | nil => cases h1
  | cons q l ih =>
    rw [List.map_cons, List.nodup_cons] at hnd
    rcases List.mem_cons.mp h1 with h1 | h1 <;> rcases List.mem_cons.mp h2 with h2 | h2
    · have h12 : (id0, c) = (id0, c2) := h1.trans h2.symm
      exact (((Prod.mk.injEq _ _ _ _).mp h12).2).symm
    · exfalso
      have hq1 : q.1 = id0 := by rw [← h1]
      apply hnd.1
      rw [hq1]
      simpa using List.mem_map_of_mem Prod.fst h2
    · exfalso
      have hq1 : q.1 = id0 := by rw [← h2]
      apply hnd.1
      rw [hq1]
      simpa using List.mem_map_of_mem Prod.fst h1
    · exact ih hnd.2 h1 h2

/-- C4 amended: one Reaper sweep deletes every expired job's record
(absent from `getJob` afterwards) and its pdf/docx result blobs, and
returns the number of jobs reclaimed — but it deletes no other blob:
any stored blob that is not the `pdfFileId` or `docxFileId` of some
expired job, in particular every source blob, remains in storage. -/
theorem C4_reaper_sweep (now : Nat) (s : ReaperState) (id0 : ConversionId)
    (c : Conversion)
    (hkeys : (s.conversions.map Prod.fst).Nodup)
    (hst : s.storageKeys.Nodup)
    (hmem : (id0, c) ∈ s.conversions) (hexp : c.expiresAt < now) :
    getJob (cleanupExpiredConversions now s).1 id0 = none ∧
    (∀ f, c.pdfFileId = some f →
      f ∉ (cleanupExpiredConversions now s).1.storageKeys) ∧
    (∀ f, c.docxFileId = some f →
      f ∉ (cleanupExpiredConversions now s).1.storageKeys) ∧
    (∀ b ∈ s.storageKeys,
      (∀ p ∈ s.conversions, isExpired now p = true →
        p.2.pdfFileId ≠ some b ∧ p.2.docxFileId ≠ some b) →
      b ∈ (cleanupExpiredConversions now s).1.storageKeys) ∧
    (cleanupExpiredConversions now s).2 =
      (s.conversions.filter (isExpired now)).length := by
  have hmemexp : (id0, c) ∈ s.conversions.filter (isExpired now) :=
    List.mem_filter.mpr ⟨hmem, by simp [isExpired, hexp]⟩
  refine ⟨?_, ?_, ?_, ?_, rfl⟩
  · unfold getJob cleanupExpiredConversions
    have hfind : (s.conversions.filter (fun p => ! isExpired now p)).find?
        (fun p => p.1 == id0) = none := by
      rw [List.find?_eq_none]
      intro p hp hbeq
      have hid : p.1 = id0 := by simpa using hbeq
      obtain ⟨hpmem, hpnotexp⟩ := List.mem_filter.mp hp
      have hpair : (id0, p.2) = p := by
        rw [← hid]
      have hpc : p.2 = c :=
        keyLookupUnique s.conversions hkeys id0 c p.2 hmem
          (by rw [hpair]; exact hpmem)
      have hexp2 : isExpired now p = true := by
        unfold isExpired
        rw [show p.2.expiresAt = c.expiresAt from by rw [hpc]]
        simp [hexp]
      rw [hexp2] at hpnotexp
      simp at hpnotexp
    simp [hfind]
  · intro f hf
    exact foldCleanup_removes (s.conversions.filter (isExpired now)) s.storageKeys hst
      (id0, c) hmemexp f (Or.inl hf)
  · intro f hf
    exact foldCleanup_removes (s.conversions.filter (isExpired now)) s.storageKeys hst
      (id0, c) hmemexp f (Or.inr hf)
  · intro b hb hnot
    exact foldCleanup_keeps (s.conversions.filter (isExpired now)) s.storageKeys b hb
      (fun p hpl => hnot p (List.mem_filter.mp hpl).1 (List.mem_filter.mp hpl).2)

/-- C4 witness: the sweep behavior evaluated on the concrete state with
one expired job and its stored source blob. -/
theorem C4_reaper_sweep_witness :
    getJob (cleanupExpiredConversions 10 sampleReaperState).1 1 = none ∧
    (∀ f, expiredSourceJob.pdfFileId = some f →
      f ∉ (cleanupExpiredConversions 10 sampleReaperState).1.storageKeys) ∧
    (∀ f, expiredSourceJob.docxFileId = some f →
      f ∉ (cleanupExpiredConversions 10 sampleReaperState).1.storageKeys) ∧
    (∀ b ∈ sampleReaperState.storageKeys,
      (∀ p ∈ sampleReaperState.conversions, isExpired 10 p = true →
        p.2.pdfFileId ≠ some b ∧ p.2.docxFileId ≠ some b) →
      b ∈ (cleanupExpiredConversions 10 sampleReaperState).1.storageKeys) ∧
    (cleanupExpiredConversions 10 sampleReaperState).2 =
      (sampleReaperState.conversions.filter (isExpired 10)).length :=
  C4_reaper_sweep 10 sampleReaperState 1 expiredSourceJob (by decide) (by decide)
    (by decide) (by decide)

/-- C6 amended: the image chain attempts its tiers in the fixed order
remote-API (only when an API key is configured — otherwise that tier is
skipped, not attempted), PDFKit, minimal fallback; each attempted
tier's raised failure is caught and the next tier attempted; and the
chain fails only when every configured tier has been attempted and has
failed. -/
theorem C6_strategy_chain (hasKey : Bool)
    (remote pdfkit fallback : List String → Except String Bytes)
    (urls : List (Option String))
    (hval : jsFilterTruthy urls ≠ []) :
    ((allowedTiers hasKey).take
        (convertImagesToPdfBufferTrace hasKey remote pdfkit fallback urls).1.length =
      (convertImagesToPdfBufferTrace hasKey remote pdfkit fallback urls).1) ∧
    (((convertImagesToPdfBufferTrace hasKey remote pdfkit fallback urls).2.isOk = false) ↔
      (∀ t ∈ allowedTiers hasKey,
        (tierResult remote pdfkit fallback (jsFilterTruthy urls) t).isOk = false)) ∧
    ((convertImagesToPdfBufferTrace hasKey remote pdfkit fallback urls).2.isOk = false →
      (convertImagesToPdfBufferTrace hasKey remote pdfkit fallback urls).1 =
        allowedTiers hasKey) ∧
    (∀ t ∈ (convertImagesToPdfBufferTrace hasKey remote pdfkit fallback urls).1.dropLast,
      (tierResult remote pdfkit fallback (jsFilterTruthy urls) t).isOk = false) := by
  have hempty : (jsFilterTruthy urls).isEmpty = false := by
    simp [List.isEmpty_iff, hval]
  cases hasKey with
  | false =>
    rcases hp : pdfkit (jsFilterTruthy urls) with ep | bp <;>
      rcases hf : fallback (jsFilterTruthy urls) with ef | bf <;>
        simp [convertImagesToPdfBufferTrace, hempty, hp, hf, allowedTiers, tierResult,
          Except.isOk, Except.toBool]
  | true =>
    rcases hr : remote (jsFilterTruthy urls) with er | br <;>
      rcases hp : pdfkit (jsFilterTruthy urls) with ep | bp <;>
        rcases hf : fallback (jsFilterTruthy urls) with ef | bf <;>
          simp [convertImagesToPdfBufferTrace, hempty, hr, hp, hf, allowedTiers, tierResult,
            Except.isOk, Except.toBool]

/-- C6 witness: the chain evaluated with an API key configured and every
tier failing — all three tiers are attempted in order and the chain
fails. -/
theorem C6_strategy_chain_witness :
    ((allowedTiers true).take
        (convertImagesToPdfBufferTrace true (fun _ => Except.error "remote down")
          (fun _ => Except.error "pdfkit down") (fun _ => Except.error "fallback down")
          [some "u1"]).1.length =
      (convertImagesToPdfBufferTrace true (fun _ => Except.error "remote down")
        (fun _ => Except.error "pdfkit down") (fun _ => Except.error "fallback down")
        [some "u1"]).1) ∧
    (((convertImagesToPdfBufferTrace true (fun _ => Except.error "remote down")
        (fun _ => Except.error "pdfkit down") (fun _ => Except.error "fallback down")
        [some "u1"]).2.isOk = false) ↔
      (∀ t ∈ allowedTiers true,
        (tierResult (fun _ => Except.error "remote down")
          (fun _ => Except.error "pdfkit down") (fun _ => Except.error "fallback down")
          (jsFilterTruthy [some "u1"]) t).isOk = false)) ∧
    ((convertImagesToPdfBufferTrace true (fun _ => Except.error "remote down")
        (fun _ => Except.error "pdfkit down") (fun _ => Except.error "fallback down")
        [some "u1"]).2.isOk = false →
      (convertImagesToPdfBufferTrace true (fun _ => Except.error "remote down")
        (fun _ => Except.error "pdfkit down") (fun _ => Except.error "fallback down")
        [some "u1"]).1 = allowedTiers true) ∧
    (∀ t ∈ (convertImagesToPdfBufferTrace true (fun _ => Except.error "remote down")
        (fun _ => Except.error "pdfkit down") (fun _ => Except.error "fallback down")
        [some "u1"]).1.dropLast,
      (tierResult (fun _ => Except.error "remote down")
        (fun _ => Except.error "pdfkit down") (fun _ => Except.error "fallback down")
        (jsFilterTruthy [some "u1"]) t).isOk = false) :=
  C6_strategy_chain true (fun _ => Except.error "remote down")
    (fun _ => Except.error "pdfkit down") (fun _ => Except.error "fallback down")
    [some "u1"] (by decide)

theorem mergeBatchesGo_spec :
    ∀ (fuel : Nat) (current : MDoc) (rest : List MDoc), rest.length ≤ fuel →
      (∀ call ∈ (mergeBatchesGo fuel current rest).1, call.length ≤ 10) ∧
      (mergeBatchesGo fuel current rest).2 = current ++ rest.flatten ∧
      (∀ i c c', (mergeBatchesGo fuel current rest).1[i]? = some c →
        (mergeBatchesGo fuel current rest).1[i + 1]? = some c' →
        c'.head? = some c.flatten) ∧
      (rest ≠ [] →
        (mergeBatchesGo fuel current rest).1[0]? = some (current :: rest.take 9)) := by
  intro fuel
  induction fuel with
  | zero =>
    intro current rest hlen
    have hrest : rest = [] := List.length_eq_zero.mp (Nat.le_zero.mp hlen)
    subst hrest
    refine ⟨?_, by simp [mergeBatchesGo], ?_, fun h => absurd rfl h⟩
    · intro call hcall
      simp [mergeBatchesGo] at hcall
    · intro i c c' hc
      simp [mergeBatchesGo] at hc
  | succ fuel ih =>
    intro current rest hlen
    cases rest with
    | nil =>
      refine ⟨?_, by simp [mergeBatchesGo], ?_, fun h => absurd rfl h⟩
      · intro call hcall
        simp [mergeBatchesGo] at hcall
      · intro i c c' hc
        simp [mergeBatchesGo] at hc
    | cons r rs =>
      have hlen2 : ((r :: rs).drop 9).length ≤ fuel := by
        simp only [List.length_drop, List.length_cons] at *
        omega
      obtain ⟨ih1, ih2, ih3, ih4⟩ :=
        ih (apiMergeCall (current :: (r :: rs).take 9)) ((r :: rs).drop 9) hlen2
      simp only [mergeBatchesGo]
      refine ⟨?_, ?_, ?_, ?_⟩
      · intro call hcall
        rcases List.mem_cons.mp hcall with rfl | hcall
        · have htake := List.length_take_le 9 (r :: rs)
          simp only [List.length_cons]
          omega
        · exact ih1 call hcall
      · rw [ih2]
        simp only [apiMergeCall, List.flatten_cons, List.append_assoc]
        rw [← List.flatten_append, List.take_append_drop]
        simp [List.flatten_cons]
      · intro i c c' hc hc'
        cases i with
        | zero =>
          simp only [List.getElem?_cons_zero, Option.some.injEq] at hc
          subst hc
          simp only [List.getElem?_cons_succ] at hc'
          cases hdrop : (r :: rs).drop 9 with
          | nil =>
            rw [hdrop] at hc'
            simp [mergeBatchesGo] at hc'
          | cons d ds =>
            have h0 := ih4 (by simp [hdrop])
            rw [h0] at hc'
            simp only [Option.some.injEq] at hc'
            subst hc'
            rfl
        | succ i =>
          simp only [List.getElem?_cons_succ] at hc hc'
          exact ih3 i c c' hc hc'
      · intro _
        simp

/-- C7: every external merge call made by `convertImagesWithApi` passes
at most 10 input files; beyond 10 documents the merging folds
iteratively, each round's merged output supplied as input #1 of the
next round together with up to 9 not-yet-merged documents; and the
final output contains all K documents, in order. -/
theorem C7_merge_api_batching (pdfPages : List MDoc) (calls : List (List MDoc))
    (final : MDoc) (hne : pdfPages ≠ [])
    (h : convertImagesWithApiCalls pdfPages = some (calls, final)) :
    (∀ call ∈ calls, call.length ≤ 10) ∧
    final = pdfPages.flatten ∧
    (10 < pdfPages.length →
      calls[0]? = some (pdfPages.take 10) ∧
      (∀ i c c', calls[i]? = some c → calls[i + 1]? = some c' →
        c'.head? = some c.flatten)) := by
  rcases pdfPages with _ | ⟨p, _ | ⟨q, _ | ⟨r, tl⟩⟩⟩
  · exact absurd rfl hne
  · simp only [convertImagesWithApiCalls, Option.some.injEq, Prod.mk.injEq] at h
    obtain ⟨rfl, rfl⟩ := h.symm
    refine ⟨?_, by simp, ?_⟩
    · intro call hcall
      simp at hcall
    · intro h10
      simp only [List.length_cons, List.length_nil] at h10
      omega
  · simp only [convertImagesWithApiCalls, Option.some.injEq, Prod.mk.injEq] at h
    obtain ⟨rfl, rfl⟩ := h.symm
    refine ⟨?_, by simp [apiMergeCall], ?_⟩
    · intro call hcall
      simp at hcall
      subst hcall
      simp
    · intro h10
      simp only [List.length_cons, List.length_nil] at h10
      omega
  · by_cases h10 : 10 < (p :: q :: r :: tl).length
    · simp only [convertImagesWithApiCalls, if_pos h10, mergeBatchesAux,
        Option.some.injEq, Prod.mk.injEq] at h
      obtain ⟨rfl, rfl⟩ := h.symm
      obtain ⟨s1, s2, s3, s4⟩ :=
        mergeBatchesGo_spec ((p :: q :: r :: tl).drop 10).length
          (apiMergeCall ((p :: q :: r :: tl).take 10)) ((p :: q :: r :: tl).drop 10)
          (Nat.le_refl _)
      have hdropne : (p :: q :: r :: tl).drop 10 ≠ [] := by
        intro hd
        have := congrArg List.length hd
        simp only [List.length_drop, List.length_nil] at this
        omega
      refine ⟨?_, ?_, ?_⟩
      · intro call hcall
        rcases List.mem_cons.mp hcall with rfl | hcall
        · have htake := List.length_take_le 10 (p :: q :: r :: tl)
          omega
        · exact s1 call hcall
      · rw [s2]
        simp only [apiMergeCall]
        rw [← List.flatten_append, List.take_append_drop]
      · intro _
        refine ⟨by simp, ?_⟩
        intro i c c' hc hc'
        cases i with
        | zero =>
          simp only [List.getElem?_cons_zero, Option.some.injEq] at hc
          subst hc
          simp only [List.getElem?_cons_succ] at hc'
          rw [s4 hdropne] at hc'
          simp only [Option.some.injEq] at hc'
          subst hc'
          rfl
        | succ i =>
          simp only [List.getElem?_cons_succ] at hc hc'
          exact s3 i c c' hc hc'
    · simp only [convertImagesWithApiCalls, if_neg h10, Option.some.injEq,
        Prod.mk.injEq] at h
      obtain ⟨rfl, rfl⟩ := h.symm
      have hle : (p :: q :: r :: tl).length ≤ 10 := Nat.not_lt.mp h10
      refine ⟨?_, ?_, fun h => absurd h h10⟩
      · intro call hcall
        rcases List.mem_cons.mp hcall with rfl | hcall
        · exact List.length_take_le 10 _
        · simp at hcall
      · simp only [apiMergeCall]
        rw [List.take_of_length_le hle]

/-- C7 witness: twelve single-page documents — the first call passes 10
inputs, the second passes the merged output plus the remaining 2, and
the final output holds all 12 documents in order. -/
theorem C7_merge_api_batching_witness :
    (∀ call ∈ [[[0], [1], [2], [3], [4], [5], [6], [7], [8], [9]],
        [[0, 1, 2, 3, 4, 5, 6, 7, 8, 9], [10], [11]]], call.length ≤ 10) ∧
    ([0, 1, 2, 3, 4, 5, 6, 7, 8, 9, 10, 11] : MDoc) = twelveSinglePageDocs.flatten ∧
    (10 < twelveSinglePageDocs.length →
      ([[[0], [1], [2], [3], [4], [5], [6], [7], [8], [9]],
        [[0, 1, 2, 3, 4, 5, 6, 7, 8, 9], [10], [11]]] :
          List (List MDoc))[0]? = some (twelveSinglePageDocs.take 10) ∧
      (∀ i c c',
        ([[[0], [1], [2], [3], [4], [5], [6], [7], [8], [9]],
          [[0, 1, 2, 3, 4, 5, 6, 7, 8, 9], [10], [11]]] :
            List (List MDoc))[i]? = some c →
        ([[[0], [1], [2], [3], [4], [5], [6], [7], [8], [9]],
          [[0, 1, 2, 3, 4, 5, 6, 7, 8, 9], [10], [11]]] :
            List (List MDoc))[i + 1]? = some c' →
        c'.head? = some c.flatten)) :=
  C7_merge_api_batching twelveSinglePageDocs
    [[[0], [1], [2], [3], [4], [5], [6], [7], [8], [9]],
     [[0, 1, 2, 3, 4, 5, 6, 7, 8, 9], [10], [11]]]
    [0, 1, 2, 3, 4, 5, 6, 7, 8, 9, 10, 11] (by decide) (by decide)

theorem urlEntriesGo_no_break (total : Nat) :
    ∀ (l : List (Nat × String)) (y : Int), 50 + 15 * l.length ≤ y →
      urlEntriesGo total y l =
        l.map (fun p => Nat.repr (p.1 + 1) ++ ". " ++ displayUrl p.2) := by
  intro l
  induction l with
  | nil => intro y _; rfl
  | cons p rest ih =>
    intro y hy
    obtain ⟨i, url⟩ := p
    simp only [List.length_cons] at hy
    have h50 : ¬ (y - 15 < 50) := by
      push_cast at hy
      omega
    unfold urlEntriesGo
    rw [if_neg h50, ih (y - 15) (by push_cast at hy ⊢; omega)]
    rfl

/-- C8: for every non-empty URL list, `createSimplePdfFromUrls`
returns a document with exactly 2 pages regardless of the list's
length — a cover page stating the image count and the generation date,
and a references page listing at most the first 30 source URLs as plain
text — and no page embeds any image bytes. -/
theorem C8_minimal_fallback (height : Int) (today : String) (urls : List String)
    (hne : urls ≠ []) (hh : 600 ≤ height) :
    (createSimplePdfFromUrls height today urls).length = 2 ∧
    ((createSimplePdfFromUrls height today urls)[0]?.map SimplePage.elements) =
      some [
        PdfElement.text "PDF Document",
        PdfElement.text ("Contains " ++ Nat.repr urls.length ++ " image" ++
          (if urls.length ≠ 1 then "s" else "")),
        PdfElement.text ("Generated on " ++ today),
        PdfElement.text "Note: Server-side image embedding failed.",
        PdfElement.text "Please try client-side conversion instead." ] ∧
    ((createSimplePdfFromUrls height today urls)[1]?.map SimplePage.elements) =
      some (PdfElement.text "Image References:" ::
        (urls.take 30).enum.map
          (fun p => PdfElement.text (Nat.repr (p.1 + 1) ++ ". " ++ displayUrl p.2))) ∧
    (∀ pg ∈ createSimplePdfFromUrls height today urls, ∀ el ∈ pg.elements,
      ∀ bs, el ≠ PdfElement.image bs) := by
  have hlist : urlEntriesGo urls.length (height - 100) (urls.take 30).enum =
      (urls.take 30).enum.map
        (fun p => Nat.repr (p.1 + 1) ++ ". " ++ displayUrl p.2) := by
    apply urlEntriesGo_no_break
    have hlen : (urls.take 30).enum.length ≤ 30 := by
      rw [List.enum_length]
      exact List.length_take_le 30 urls
    omega
  refine ⟨rfl, rfl, ?_, ?_⟩
  · simp only [createSimplePdfFromUrls, hlist]
    simp [List.map_map, Function.comp]
  · intro pg hpg el hel bs
    simp only [createSimplePdfFromUrls, List.mem_cons, List.mem_singleton] at hpg
    rcases hpg with rfl | rfl | hfalse
    · simp only [List.mem_cons] at hel
      rcases hel with rfl | rfl | rfl | rfl | rfl | hfalse
      · simp
      · simp
      · simp
      · simp
      · simp
      · simp at hfalse
    · simp only [List.mem_cons, List.mem_map] at hel
      rcases hel with rfl | ⟨x, _, rfl⟩
      · simp
      · simp
    · cases hfalse

/-- C8 witness: thirty-one URLs — two pages, references truncated to the
first 30 entries. -/
theorem C8_minimal_fallback_witness :
    ((createSimplePdfFromUrls 842 "10/11/2026" thirtyOneUrls).length = 2 ∧
    ((createSimplePdfFromUrls 842 "10/11/2026" thirtyOneUrls)[0]?.map
        SimplePage.elements) =
      some [
        PdfElement.text "PDF Document",
        PdfElement.text ("Contains " ++ Nat.repr thirtyOneUrls.length ++ " image" ++
          (if thirtyOneUrls.length ≠ 1 then "s" else "")),
        PdfElement.text ("Generated on " ++ "10/11/2026"),
        PdfElement.text "Note: Server-side image embedding failed.",
        PdfElement.text "Please try client-side conversion instead." ] ∧
    ((createSimplePdfFromUrls 842 "10/11/2026" thirtyOneUrls)[1]?.map
        SimplePage.elements) =
      some (PdfElement.text "Image References:" ::
        (thirtyOneUrls.take 30).enum.map
          (fun p => PdfElement.text (Nat.repr (p.1 + 1) ++ ". " ++ displayUrl p.2))) ∧
    (∀ pg ∈ createSimplePdfFromUrls 842 "10/11/2026" thirtyOneUrls, ∀ el ∈ pg.elements,
      ∀ bs, el ≠ PdfElement.image bs)) ∧
    thirtyOneUrls.length = 31 ∧
    ((thirtyOneUrls.take 30).enum.map
      (fun p => PdfElement.text (Nat.repr (p.1 + 1) ++ ". " ++ displayUrl p.2))).length = 30 :=
  ⟨C8_minimal_fallback 842 "10/11/2026" thirtyOneUrls (by decide) (by decide),
   by decide, by decide⟩

end AdocsHub
